import Mathlib

/-!
Shallow embedding of the API-gateway routing core of the repository
(Practicals/Web303_p2/api-gateway/main.go) and the gRPC-to-HTTP error
translator (Practicals/Web303_p6/api-gateway/handlers/handlers.go).

Go strings are embedded as `List Char`; `strings.Split`/`strings.Join`
with separator "/" become `splitOnChar '/'` / `joinChar '/'`, and
`strings.TrimPrefix(s, "/")` becomes `trimSlash`.
-/

/-- A Go string, embedded as a list of characters. -/
abbrev GoStr := List Char

/-- `strings.TrimPrefix(s, "/")`: drop one leading slash when present. -/
def trimSlash (s : GoStr) : GoStr :=
  match s with
  | [] => []
  | x :: xs => if x = '/' then xs else x :: xs

/-- `strings.Split(s, c)` for a one-character separator: splits at every
occurrence of `c`; the empty string yields `[""]`. -/
def splitOnChar (c : Char) : GoStr → List GoStr
  | [] => [[]]
  | x :: xs =>
    let r := splitOnChar c xs
    if x = c then [] :: r
    else (x :: r.headD []) :: r.tail

/-- `strings.Join(parts, c)` for a one-character separator. -/
def joinChar (c : Char) : List GoStr → GoStr
  | [] => []
  | [x] => x
  | x :: y :: ys => x ++ c :: joinChar c (y :: ys)

/-- The two gateway-local failure kinds of the routing core
(spec taxonomy names: `MalformedPath`, `ServiceUnavailable`). -/
inductive GatewayError
  | MalformedPath
  | ServiceUnavailable
deriving DecidableEq, Repr

/-- A registry entry: one registered service instance, as the Consul
health view exposes it (name, address, port, passing health check). -/
structure ServiceRecord where
  name : GoStr
  address : GoStr
  port : Nat
  healthy : Bool
deriving DecidableEq, Repr

/-- The target URL built by `discoverService` via
`fmt.Sprintf("http://%s:%d", instance.Address, instance.Port)`. -/
structure URLModel where
  address : GoStr
  port : Nat
deriving DecidableEq, Repr

/-- An inbound HTTP request as the routing step sees it. -/
structure Request where
  method : GoStr
  path : GoStr
  query : GoStr
  headers : List (GoStr × GoStr)
  body : GoStr
deriving DecidableEq, Repr

/-- An HTTP response: status code and body. -/
structure Response where
  status : Nat
  body : GoStr
deriving DecidableEq, Repr

/-- The segment list `pathParts` computed by `routeRequest`:
`strings.Split(strings.TrimPrefix(r.URL.Path, "/"), "/")`. -/
def pathSegments (path : GoStr) : List GoStr :=
  splitOnChar '/' (trimSlash path)

/-- Whether `pathParts[0] == "api"` holds (the gateway's prefix check). -/
def firstSegmentIsApi (path : GoStr) : Bool :=
  match pathSegments path with
  | s :: _ => s = "api".toList
  | [] => false

/-- The path-parsing step of `routeRequest` (main.go lines 37–42, 58):
`pathParts := strings.Split(strings.TrimPrefix(r.URL.Path, "/"), "/")`;
reject when `len(pathParts) < 3 || pathParts[0] != "api"`; otherwise
`serviceName := pathParts[1] + "-service"` and the forward path is
`"/" + strings.Join(pathParts[2:], "/")`. -/
def routeParse (path : GoStr) : Except GatewayError (GoStr × GoStr) :=
  match pathSegments path with
  | p0 :: p1 :: p2 :: rest =>
    if p0 = "api".toList then
      Except.ok (p1 ++ "-service".toList, '/' :: joinChar '/' (p2 :: rest))
    else Except.error GatewayError.MalformedPath
  | _ => Except.error GatewayError.MalformedPath

/-- The healthy instances Consul returns for a name:
`client.Health().Service(serviceName, "", true, nil)` filters the
registered records to those with the given name and a passing check,
keeping registration order. -/
def healthyInstances (reg : List ServiceRecord) (serviceName : GoStr) : List ServiceRecord :=
  reg.filter (fun rec => rec.name == serviceName && rec.healthy)

/-- `discoverService` (main.go lines 67–88): query the healthy instances,
fail when none exist, otherwise build the URL of the first instance. -/
def discoverService (reg : List ServiceRecord) (serviceName : GoStr) :
    Except GatewayError URLModel :=
  match healthyInstances reg serviceName with
  | [] => Except.error GatewayError.ServiceUnavailable
  | inst :: _ => Except.ok ⟨inst.address, inst.port⟩

/-- The request actually handed to the reverse proxy: `routeRequest`
mutates only `r.URL.Path` (line 58); method, query, headers and body
are left as they came in. -/
def forwardedRequest (r : Request) (forwardPath : GoStr) : Request :=
  { r with path := forwardPath }

/-- Decimal rendering of a number, for log lines. -/
def natStr (n : Nat) : GoStr := (toString n).toList

/-- The string form of a target URL, `"http://" + addr + ":" + port`. -/
def urlString (u : URLModel) : GoStr :=
  "http://".toList ++ u.address ++ ":".toList ++ natStr u.port

/-- `log.Printf("Incoming request: %s %s", r.Method, r.URL.Path)`. -/
def incomingLine (r : Request) : GoStr :=
  "Incoming request: ".toList ++ r.method ++ " ".toList ++ r.path

/-- `log.Printf("Service discovery failed for '%s': %v", serviceName, err)`
with the error from `discoverService`,
`"no healthy instances available for '%s'"`. -/
def discoveryFailLine (serviceName : GoStr) : GoStr :=
  "Service discovery failed for '".toList ++ serviceName
    ++ "': no healthy instances available for '".toList ++ serviceName ++ "'".toList

/-- `log.Printf("Located service at: %s", targetURL)`. -/
def locatedLine (u : URLModel) : GoStr :=
  "Located service at: ".toList ++ urlString u

/-- `log.Printf("Proxying to: %s%s", targetURL, r.URL.Path)`. -/
def proxyingLine (u : URLModel) (forwardPath : GoStr) : GoStr :=
  "Proxying to: ".toList ++ urlString u ++ forwardPath

/-- The whole of `routeRequest` (main.go lines 33–62), with the reverse
proxy abstracted as a function `backend` from target URL and forwarded
request to the backend's response, which `httputil.ReverseProxy` streams
back verbatim. Returns the response sent to the caller and the log lines
emitted, in order. `http.Error` writes its message plus a newline. -/
def routeRequest (reg : List ServiceRecord) (backend : URLModel → Request → Response)
    (r : Request) : Response × List GoStr :=
  let log0 := incomingLine r
  match routeParse r.path with
  | Except.error _ => (⟨400, "Invalid path format\n".toList⟩, [log0])
  | Except.ok (serviceName, forwardPath) =>
    match discoverService reg serviceName with
    | Except.error _ =>
        (⟨503, "Service not available\n".toList⟩, [log0, discoveryFailLine serviceName])
    | Except.ok target =>
        (backend target (forwardedRequest r forwardPath),
         [log0, locatedLine target, proxyingLine target forwardPath])

/-- `routeRequest` instrumented with counters: how many times the
resolution step (`discoverService`) and the forward step (the reverse
proxy) run for one inbound request. Mirrors `routeRequest` exactly. -/
def routeRequestInstr (reg : List ServiceRecord) (backend : URLModel → Request → Response)
    (r : Request) : Response × Nat × Nat :=
  match routeParse r.path with
  | Except.error _ => (⟨400, "Invalid path format\n".toList⟩, 0, 0)
  | Except.ok (serviceName, forwardPath) =>
    match discoverService reg serviceName with
    | Except.error _ => (⟨503, "Service not available\n".toList⟩, 1, 0)
    | Except.ok target => (backend target (forwardedRequest r forwardPath), 1, 1)

/-- The gRPC status codes (google.golang.org/grpc/codes). -/
inductive GrpcCode
  | OK
  | Canceled
  | Unknown
  | InvalidArgument
  | DeadlineExceeded
  | NotFound
  | AlreadyExists
  | PermissionDenied
  | ResourceExhausted
  | FailedPrecondition
  | Aborted
  | OutOfRange
  | Unimplemented
  | Internal
  | Unavailable
  | DataLoss
  | Unauthenticated
deriving DecidableEq, Repr

/-- A Go error as `status.FromError` classifies it: either a gRPC status
(code and message) or any other error. -/
inductive GoError
  | grpcStatus (code : GrpcCode) (message : GoStr)
  | nonGrpc (message : GoStr)

/-- `handleGRPCError` (handlers.go lines 23–55): a non-gRPC error gets a
generic 500; a gRPC status is mapped through the switch on `st.Code()`
and the response body is `st.Message()` (plus the newline `http.Error`
appends). -/
def handleGRPCError : GoError → Nat × GoStr
  | GoError.nonGrpc _ => (500, "internal server error\n".toList)
  | GoError.grpcStatus code msg =>
    let httpStatus : Nat :=
      match code with
      | GrpcCode.NotFound => 404
      | GrpcCode.InvalidArgument => 400
      | GrpcCode.AlreadyExists => 409
      | GrpcCode.PermissionDenied => 403
      | GrpcCode.Unauthenticated => 401
      | GrpcCode.FailedPrecondition => 412
      | GrpcCode.Unimplemented => 501
      | GrpcCode.Unavailable => 503
      | _ => 500
    (httpStatus, msg ++ ['\n'])

/-- Boolean: does `needle` occur at the start of `hay`? -/
def startsWithSeg : GoStr → GoStr → Bool
  | [], _ => true
  | _ :: _, [] => false
  | a :: as, b :: bs => a = b && startsWithSeg as bs

/-- Boolean: does `needle` occur anywhere inside `hay`? -/
def hasSubstr (needle : GoStr) : GoStr → Bool
  | [] => startsWithSeg needle []
  | c :: rest => startsWithSeg needle (c :: rest) || hasSubstr needle rest

/-! ### Helper lemmas about the string primitives -/

theorem splitOnChar_ne_nil (c : Char) (s : GoStr) : splitOnChar c s ≠ [] := by
  induction s with
  | nil => simp [splitOnChar]
  | cons x xs ih =>
    simp only [splitOnChar]
    split
    · simp
    · simp

theorem splitOnChar_append_of_not_mem (c : Char) (a s : GoStr) (h : c ∉ a) :
    splitOnChar c (a ++ c :: s) = a :: splitOnChar c s := by
  induction a with
  | nil => simp [splitOnChar]
  | cons x a' ih =>
    simp only [List.mem_cons, not_or] at h
    obtain ⟨h1, h2⟩ := h
    have hxc : ¬ (x = c) := fun e => h1 e.symm
    simp [splitOnChar, hxc, ih h2]

theorem joinChar_splitOnChar (c : Char) (s : GoStr) :
    joinChar c (splitOnChar c s) = s := by
  induction s with
  | nil => rfl
  | cons x xs ih =>
    by_cases hx : x = c
    · subst hx
      cases hr : splitOnChar x xs with
      | nil => exact absurd hr (splitOnChar_ne_nil x xs)
      | cons y ys =>
        rw [hr] at ih
        simp [splitOnChar, hr, joinChar, ih]
    · cases hr : splitOnChar c xs with
      | nil => exact absurd hr (splitOnChar_ne_nil c xs)
      | cons y ys =>
        rw [hr] at ih
        cases ys with
        | nil =>
          simp [joinChar] at ih
          simp [splitOnChar, hx, hr, joinChar, ih]
        | cons z zs =>
          simp [joinChar] at ih
          simp [splitOnChar, hx, hr, joinChar, ih]

/-- Valid-path characterization of `routeParse`, shared by several
claims: a path `/api/<svc>/<rest>` with a slash-free service token
parses to `(<svc> + "-service", "/" + <rest>)`. -/
theorem routeParse_valid (svc rest : GoStr) (h : '/' ∉ svc) :
    routeParse ("/api/".toList ++ svc ++ '/' :: rest)
      = Except.ok (svc ++ "-service".toList, '/' :: rest) := by
  have hpath : "/api/".toList ++ svc ++ '/' :: rest
      = '/' :: ("api".toList ++ '/' :: (svc ++ '/' :: rest)) := rfl
  have hsegs : pathSegments ("/api/".toList ++ svc ++ '/' :: rest)
      = "api".toList :: svc :: splitOnChar '/' rest := by
    rw [hpath]
    show splitOnChar '/' (trimSlash ('/' :: ("api".toList ++ '/' :: (svc ++ '/' :: rest))))
      = _
    have ht : trimSlash ('/' :: ("api".toList ++ '/' :: (svc ++ '/' :: rest)))
        = "api".toList ++ '/' :: (svc ++ '/' :: rest) := by
      simp [trimSlash]
    rw [ht]
    rw [splitOnChar_append_of_not_mem '/' ("api".toList) _ (by decide)]
    rw [splitOnChar_append_of_not_mem '/' svc rest h]
  cases hr : splitOnChar '/' rest with
  | nil => exact absurd hr (splitOnChar_ne_nil '/' rest)
  | cons p2 ps =>
    have hj : joinChar '/' (p2 :: ps) = rest := by
      rw [← hr]; exact joinChar_splitOnChar '/' rest
    rw [routeParse, hsegs, hr]
    simp [hj]

theorem startsWithSeg_self_append (n b : GoStr) :
    startsWithSeg n (n ++ b) = true := by
  induction n with
  | nil => rfl
  | cons x xs ih => simp [startsWithSeg, ih]

theorem hasSubstr_of_startsWithSeg (n a t : GoStr) (h : startsWithSeg n t = true) :
    hasSubstr n (a ++ t) = true := by
  induction a with
  | nil =>
    cases t with
    | nil => simpa [hasSubstr] using h
    | cons c r => simp [hasSubstr, h]
  | cons x a' ih => simp [hasSubstr, ih]

theorem hasSubstr_append_self (n a b : GoStr) :
    hasSubstr n (a ++ n ++ b) = true := by
  rw [List.append_assoc]
  exact hasSubstr_of_startsWithSeg n a (n ++ b) (startsWithSeg_self_append n b)

/-- Malformed-path characterization of `routeParse`, shared by claims:
when the first segment is not `api` or fewer than 2 segments follow it,
parsing fails. -/
theorem routeParse_malformed (path : GoStr)
    (h : firstSegmentIsApi path = false ∨ (pathSegments path).tail.length < 2) :
    routeParse path = Except.error GatewayError.MalformedPath := by
  cases hs : pathSegments path with
  | nil => rw [routeParse, hs]
  | cons p0 rest0 =>
    cases rest0 with
    | nil => rw [routeParse, hs]
    | cons p1 rest1 =>
      cases rest1 with
      | nil => rw [routeParse, hs]
      | cons p2 rest2 =>
        rw [routeParse, hs]
        rcases h with h | h
        · rw [firstSegmentIsApi, hs] at h
          simp only [decide_eq_false_iff_not] at h
          exact if_neg h
        · rw [hs] at h
          exact absurd h (by simp)

/-! ### Claims -/

/-- C1: for every path `/api/<svc>/<rest>` (slash-free `<svc>`), parsing
derives `serviceName = <svc> + "-service"` and `forwardPath = "/" + <rest>`
(empty rest yields `"/"`); for every path whose first segment is not the
`api` prefix or with fewer than 2 segments after it, parsing fails with
`MalformedPath` and the gateway answers 400 without forwarding. -/
theorem c1_path_parsing :
    (∀ svc rest : GoStr, '/' ∉ svc →
       routeParse ("/api/".toList ++ svc ++ '/' :: rest)
         = Except.ok (svc ++ "-service".toList, '/' :: rest))
    ∧ (∀ path : GoStr,
       firstSegmentIsApi path = false ∨ (pathSegments path).tail.length < 2 →
       routeParse path = Except.error GatewayError.MalformedPath)
    ∧ (∀ (reg : List ServiceRecord) (backend : URLModel → Request → Response) (r : Request),
       routeParse r.path = Except.error GatewayError.MalformedPath →
       routeRequest reg backend r
         = (⟨400, "Invalid path format\n".toList⟩, [incomingLine r])) := by
  refine ⟨routeParse_valid, routeParse_malformed, ?_⟩
  intro reg backend r h
  simp [routeRequest, h]

/-- Witness for C1 at `/api/users/42` and at `/bogus`. -/
theorem c1_witness :
    routeParse ("/api/".toList ++ "users".toList ++ '/' :: "42".toList)
      = Except.ok ("users".toList ++ "-service".toList, '/' :: "42".toList)
    ∧ routeParse "/bogus".toList = Except.error GatewayError.MalformedPath
    ∧ routeRequest [] (fun _ _ => ⟨200, []⟩)
        ⟨"GET".toList, "/bogus".toList, [], [], []⟩
      = (⟨400, "Invalid path format\n".toList⟩,
         [incomingLine ⟨"GET".toList, "/bogus".toList, [], [], []⟩]) :=
  ⟨c1_path_parsing.1 "users".toList "42".toList (by decide),
   c1_path_parsing.2.1 "/bogus".toList (by decide),
   c1_path_parsing.2.2 [] (fun _ _ => ⟨200, []⟩)
     ⟨"GET".toList, "/bogus".toList, [], [], []⟩ (by rfl)⟩

/-- C2: a path-parsing failure yields HTTP 400 and a resolution failure
(no healthy instance for the derived name) yields HTTP 503; each failure
kind maps to exactly that one externally visible status. -/
theorem c2_failure_status_mapping :
    ∀ (reg : List ServiceRecord) (backend : URLModel → Request → Response) (r : Request),
    (routeParse r.path = Except.error GatewayError.MalformedPath →
       (routeRequest reg backend r).1 = ⟨400, "Invalid path format\n".toList⟩)
    ∧ (∀ serviceName forwardPath,
       routeParse r.path = Except.ok (serviceName, forwardPath) →
       discoverService reg serviceName = Except.error GatewayError.ServiceUnavailable →
       (routeRequest reg backend r).1 = ⟨503, "Service not available\n".toList⟩) := by
  intro reg backend r
  constructor
  · intro h
    simp [routeRequest, h]
  · intro serviceName forwardPath h1 h2
    simp [routeRequest, h1, h2]

/-- Witness for C2: parse failure at `/bogus` gives 400, resolution
failure for `/api/users/42` against an empty registry gives 503. -/
theorem c2_witness :
    (routeRequest [] (fun _ _ => ⟨200, []⟩)
       ⟨"GET".toList, "/bogus".toList, [], [], []⟩).1
      = ⟨400, "Invalid path format\n".toList⟩
    ∧ (routeRequest [] (fun _ _ => ⟨200, []⟩)
       ⟨"GET".toList, "/api/users/42".toList, [], [], []⟩).1
      = ⟨503, "Service not available\n".toList⟩ :=
  ⟨(c2_failure_status_mapping [] (fun _ _ => ⟨200, []⟩)
      ⟨"GET".toList, "/bogus".toList, [], [], []⟩).1 (by rfl),
   (c2_failure_status_mapping [] (fun _ _ => ⟨200, []⟩)
      ⟨"GET".toList, "/api/users/42".toList, [], [], []⟩).2
     "users-service".toList "/42".toList (by rfl) (by rfl)⟩

/-- C3: with at least one healthy registered instance for a name,
`discoverService` returns the first matching healthy instance (a
deterministic first-match over registration order) and the returned
address always belongs to a record whose healthy flag is true; with zero
healthy instances it fails with `ServiceUnavailable`. -/
theorem c3_resolver_contract :
    ∀ (reg : List ServiceRecord) (serviceName : GoStr),
    (∀ inst others, healthyInstances reg serviceName = inst :: others →
       discoverService reg serviceName = Except.ok ⟨inst.address, inst.port⟩
       ∧ inst ∈ reg ∧ inst.healthy = true ∧ inst.name = serviceName)
    ∧ (healthyInstances reg serviceName = [] →
       discoverService reg serviceName = Except.error GatewayError.ServiceUnavailable)
    ∧ (∀ u, discoverService reg serviceName = Except.ok u →
       ∃ rec, rec ∈ reg ∧ rec.healthy = true ∧ rec.name = serviceName
         ∧ u = ⟨rec.address, rec.port⟩) := by
  intro reg serviceName
  refine ⟨?_, ?_, ?_⟩
  · intro inst others h
    have hmem : inst ∈ healthyInstances reg serviceName := by
      rw [h]; exact List.mem_cons_self _ _
    have hmem' := List.mem_filter.mp hmem
    have hpred := hmem'.2
    simp only [Bool.and_eq_true, beq_iff_eq] at hpred
    exact ⟨by simp [discoverService, h], hmem'.1, hpred.2, hpred.1⟩
  · intro h
    simp [discoverService, h]
  · intro u h
    cases hh : healthyInstances reg serviceName with
    | nil => rw [discoverService, hh] at h; cases h
    | cons inst others =>
      rw [discoverService, hh] at h
      have hu : u = ⟨inst.address, inst.port⟩ := by
        cases h; rfl
      have hmem : inst ∈ healthyInstances reg serviceName := by
        rw [hh]; exact List.mem_cons_self _ _
      have hmem' := List.mem_filter.mp hmem
      have hpred := hmem'.2
      simp only [Bool.and_eq_true, beq_iff_eq] at hpred
      exact ⟨inst, hmem'.1, hpred.2, hpred.1, hu⟩

/-- Witness for C3: an unhealthy record is skipped in favour of the first
healthy one, and an empty registry fails with `ServiceUnavailable`. -/
theorem c3_witness :
    discoverService
      [⟨"users-service".toList, "a".toList, 1, false⟩,
       ⟨"users-service".toList, "b".toList, 2, true⟩]
      "users-service".toList
      = Except.ok ⟨"b".toList, 2⟩
    ∧ discoverService [] "users-service".toList
      = Except.error GatewayError.ServiceUnavailable :=
  ⟨((c3_resolver_contract
      [⟨"users-service".toList, "a".toList, 1, false⟩,
       ⟨"users-service".toList, "b".toList, 2, true⟩]
      "users-service".toList).1
      ⟨"users-service".toList, "b".toList, 2, true⟩ [] (by decide)).1,
   (c3_resolver_contract [] "users-service".toList).2.1 (by decide)⟩

/-- C4 counterexample: a backend 500 is passed through verbatim by the
gateway — the caller receives the backend's own status and body (here the
backend echoes the forwarded path), with no distinct `UpstreamError`
failure report; handling is identical to a success. -/
theorem c4_counterexample :
    (routeRequest [⟨"users-service".toList, "h".toList, 81, true⟩]
       (fun _ req => ⟨500, req.path⟩)
       ⟨"GET".toList, "/api/users/42".toList, [], [], []⟩).1
      = ⟨500, "/42".toList⟩
    ∧ (routeRequest [⟨"users-service".toList, "h".toList, 81, true⟩]
       (fun _ req => ⟨500, req.path⟩)
       ⟨"GET".toList, "/api/users/42".toList, [], [], []⟩).1
      = (fun _ req => (⟨500, req.path⟩ : Response)) (⟨"h".toList, 81⟩ : URLModel)
          (forwardedRequest ⟨"GET".toList, "/api/users/42".toList, [], [], []⟩
            "/42".toList) :=
  ⟨rfl, rfl⟩

/-- C4 amended: once a request reaches the forwarding step, the gateway
returns the backend's response verbatim — including 5xx statuses — with
no retry and no distinct `UpstreamError` failure mode. -/
theorem c4_passthrough :
    ∀ (reg : List ServiceRecord) (backend : URLModel → Request → Response) (r : Request)
      serviceName forwardPath target,
    routeParse r.path = Except.ok (serviceName, forwardPath) →
    discoverService reg serviceName = Except.ok target →
    (routeRequest reg backend r).1 = backend target (forwardedRequest r forwardPath) := by
  intro reg backend r serviceName forwardPath target h1 h2
  simp [routeRequest, h1, h2]

/-- Witness for the amended C4 at a concrete registry and 500 backend. -/
theorem c4_witness :
    (routeRequest [⟨"users-service".toList, "h".toList, 81, true⟩]
       (fun _ _ => ⟨500, "boom\n".toList⟩)
       ⟨"GET".toList, "/api/users/42".toList, [], [], []⟩).1
      = (fun _ _ => (⟨500, "boom\n".toList⟩ : Response)) (⟨"h".toList, 81⟩ : URLModel)
          (forwardedRequest ⟨"GET".toList, "/api/users/42".toList, [], [], []⟩
            "/42".toList) :=
  c4_passthrough [⟨"users-service".toList, "h".toList, 81, true⟩]
    (fun _ _ => ⟨500, "boom\n".toList⟩)
    ⟨"GET".toList, "/api/users/42".toList, [], [], []⟩
    "users-service".toList "/42".toList ⟨"h".toList, 81⟩ (by rfl) (by rfl)

/-- C5 counterexample: for `GET /bogus` the gateway answers 400 but the
only log line emitted is the incoming line, which contains neither the
final status code `400` nor any failure reason. -/
theorem c5_counterexample :
    (routeRequest [] (fun _ _ => ⟨200, []⟩)
       ⟨"GET".toList, "/bogus".toList, [], [], []⟩).1.status = 400
    ∧ (routeRequest [] (fun _ _ => ⟨200, []⟩)
       ⟨"GET".toList, "/bogus".toList, [], [], []⟩).2
      = ["Incoming request: GET /bogus".toList]
    ∧ hasSubstr "400".toList "Incoming request: GET /bogus".toList = false :=
  ⟨rfl, rfl, by decide⟩

/-- C5 amended: every request logs its method and path in the incoming
line; a resolution failure additionally logs the derived service name and
the discovery error; a successful forward logs the located target and the
proxied path; a parse failure logs nothing beyond the incoming line, and
the final HTTP status code is not logged. -/
theorem c5_logging :
    ∀ (reg : List ServiceRecord) (backend : URLModel → Request → Response) (r : Request),
    (routeRequest reg backend r).2.head? = some (incomingLine r)
    ∧ hasSubstr r.method (incomingLine r) = true
    ∧ hasSubstr r.path (incomingLine r) = true
    ∧ (routeParse r.path = Except.error GatewayError.MalformedPath →
       (routeRequest reg backend r).2 = [incomingLine r])
    ∧ (∀ serviceName forwardPath,
       routeParse r.path = Except.ok (serviceName, forwardPath) →
       discoverService reg serviceName = Except.error GatewayError.ServiceUnavailable →
       (routeRequest reg backend r).2 = [incomingLine r, discoveryFailLine serviceName])
    ∧ (∀ serviceName forwardPath target,
       routeParse r.path = Except.ok (serviceName, forwardPath) →
       discoverService reg serviceName = Except.ok target →
       (routeRequest reg backend r).2
         = [incomingLine r, locatedLine target, proxyingLine target forwardPath]) := by
  intro reg backend r
  refine ⟨?_, ?_, ?_, ?_, ?_, ?_⟩
  · cases hp : routeParse r.path with
    | error e => simp [routeRequest, hp]
    | ok v =>
      obtain ⟨sn, fp⟩ := v
      cases hd : discoverService reg sn with
      | error e => simp [routeRequest, hp, hd]
      | ok u => simp [routeRequest, hp, hd]
  · have h := hasSubstr_append_self r.method "Incoming request: ".toList
      (" ".toList ++ r.path)
    simpa [incomingLine, List.append_assoc] using h
  · have h := hasSubstr_append_self r.path
      ("Incoming request: ".toList ++ r.method ++ " ".toList) []
    simpa [incomingLine, List.append_assoc] using h
  · intro h
    simp [routeRequest, h]
  · intro serviceName forwardPath h1 h2
    simp [routeRequest, h1, h2]
  · intro serviceName forwardPath target h1 h2
    simp [routeRequest, h1, h2]

/-- Witness for the amended C5 at a resolution failure against an empty
registry. -/
theorem c5_witness :
    (routeRequest [] (fun _ _ => ⟨200, []⟩)
       ⟨"GET".toList, "/api/users/42".toList, [], [], []⟩).2
      = [incomingLine ⟨"GET".toList, "/api/users/42".toList, [], [], []⟩,
         discoveryFailLine "users-service".toList] :=
  (c5_logging [] (fun _ _ => ⟨200, []⟩)
    ⟨"GET".toList, "/api/users/42".toList, [], [], []⟩).2.2.2.2.1
    "users-service".toList "/42".toList (by rfl) (by rfl)

/-- C6: per inbound request the gateway runs the resolution step at most
once and the forward step at most once, the forward step never runs
without a prior successful resolution, and the instrumented pipeline
returns the same response as `routeRequest` — there is no retry of either
step anywhere. -/
theorem c6_single_attempt :
    ∀ (reg : List ServiceRecord) (backend : URLModel → Request → Response) (r : Request),
    (routeRequestInstr reg backend r).2.1 ≤ 1
    ∧ (routeRequestInstr reg backend r).2.2 ≤ 1
    ∧ (routeRequestInstr reg backend r).2.2 ≤ (routeRequestInstr reg backend r).2.1
    ∧ (routeRequestInstr reg backend r).1 = (routeRequest reg backend r).1 := by
  intro reg backend r
  cases hp : routeParse r.path with
  | error e => simp [routeRequestInstr, routeRequest, hp]
  | ok v =>
    obtain ⟨sn, fp⟩ := v
    cases hd : discoverService reg sn with
    | error e => simp [routeRequestInstr, routeRequest, hp, hd]
    | ok u => simp [routeRequestInstr, routeRequest, hp, hd]

/-- C7: against one registry snapshot and one backend behaviour, the
gateway's full output (response and logs) is a function of the request's
components alone — two identical requests get identical responses, with
no hidden state, caching or drift. -/
theorem c7_deterministic :
    ∀ (reg : List ServiceRecord) (backend : URLModel → Request → Response)
      (r1 r2 : Request),
    r1.method = r2.method → r1.path = r2.path → r1.query = r2.query →
    r1.headers = r2.headers → r1.body = r2.body →
    routeRequest reg backend r1 = routeRequest reg backend r2 := by
  intro reg backend r1 r2 h1 h2 h3 h4 h5
  have h : r1 = r2 := by
    cases r1; cases r2; simp_all
  rw [h]

/-- Witness for C7 at two identical concrete `GET` requests. -/
theorem c7_witness :
    routeRequest [⟨"users-service".toList, "h".toList, 81, true⟩]
      (fun _ _ => ⟨200, "ok".toList⟩)
      ⟨"GET".toList, "/api/users/42".toList, [], [], []⟩
    = routeRequest [⟨"users-service".toList, "h".toList, 81, true⟩]
      (fun _ _ => ⟨200, "ok".toList⟩)
      ⟨"GET".toList, "/api/users/42".toList, [], [], []⟩ :=
  c7_deterministic [⟨"users-service".toList, "h".toList, 81, true⟩]
    (fun _ _ => ⟨200, "ok".toList⟩)
    ⟨"GET".toList, "/api/users/42".toList, [], [], []⟩
    ⟨"GET".toList, "/api/users/42".toList, [], [], []⟩
    rfl rfl rfl rfl rfl

/-- C8: a path `/api//<rest>` (empty service token) is accepted by the
parser, deriving the service name `-service`; with no healthy instance
registered under that name the request then fails at the resolution step
with 503, not with a 400 malformed-path rejection. -/
theorem c8_empty_service_token :
    ∀ (reg : List ServiceRecord) (backend : URLModel → Request → Response)
      (r : Request) (rest : GoStr),
    r.path = "/api//".toList ++ rest →
    routeParse r.path = Except.ok ("-service".toList, '/' :: rest)
    ∧ (healthyInstances reg "-service".toList = [] →
       (routeRequest reg backend r).1 = ⟨503, "Service not available\n".toList⟩
       ∧ (routeRequest reg backend r).1.status ≠ 400) := by
  intro reg backend r rest hpath
  have hparse : routeParse r.path = Except.ok ("-service".toList, '/' :: rest) := by
    rw [hpath]
    have heq : "/api//".toList ++ rest = "/api/".toList ++ ([] : GoStr) ++ '/' :: rest := rfl
    rw [heq]
    simpa using routeParse_valid [] rest (by simp)
  refine ⟨hparse, ?_⟩
  intro hreg
  have hd : discoverService reg "-service".toList
      = Except.error GatewayError.ServiceUnavailable := by
    unfold discoverService
    rw [hreg]
  have hroute : routeRequest reg backend r
      = (⟨503, "Service not available\n".toList⟩,
         [incomingLine r, discoveryFailLine "-service".toList]) := by
    simp only [routeRequest, hparse, hd]
  rw [hroute]
  exact ⟨rfl, by simp⟩

/-- Witness for C8 at `/api//x` against the empty registry. -/
theorem c8_witness :
    routeParse "/api//x".toList = Except.ok ("-service".toList, '/' :: "x".toList)
    ∧ (routeRequest [] (fun _ _ => ⟨200, []⟩)
       ⟨"GET".toList, "/api//x".toList, [], [], []⟩).1
      = ⟨503, "Service not available\n".toList⟩ := by
  have h := c8_empty_service_token [] (fun _ _ => ⟨200, []⟩)
    ⟨"GET".toList, "/api//x".toList, [], [], []⟩ "x".toList (by rfl)
  exact ⟨h.1, (h.2 (by rfl)).1⟩

/-- C9: the gRPC-to-HTTP translation is total and deterministic:
NotFound↦404, InvalidArgument↦400, AlreadyExists↦409,
PermissionDenied↦403, Unauthenticated↦401, FailedPrecondition↦412,
Unimplemented↦501, Unavailable↦503, every other gRPC code ↦ 500 with the
gRPC status message as the body (plus the newline `http.Error` appends),
and every non-gRPC error ↦ 500 with a generic body. -/
theorem c9_grpc_error_mapping :
    (∀ msg : GoStr,
      handleGRPCError (GoError.grpcStatus GrpcCode.NotFound msg) = (404, msg ++ ['\n'])
      ∧ handleGRPCError (GoError.grpcStatus GrpcCode.InvalidArgument msg) = (400, msg ++ ['\n'])
      ∧ handleGRPCError (GoError.grpcStatus GrpcCode.AlreadyExists msg) = (409, msg ++ ['\n'])
      ∧ handleGRPCError (GoError.grpcStatus GrpcCode.PermissionDenied msg) = (403, msg ++ ['\n'])
      ∧ handleGRPCError (GoError.grpcStatus GrpcCode.Unauthenticated msg) = (401, msg ++ ['\n'])
      ∧ handleGRPCError (GoError.grpcStatus GrpcCode.FailedPrecondition msg) = (412, msg ++ ['\n'])
      ∧ handleGRPCError (GoError.grpcStatus GrpcCode.Unimplemented msg) = (501, msg ++ ['\n'])
      ∧ handleGRPCError (GoError.grpcStatus GrpcCode.Unavailable msg) = (503, msg ++ ['\n'])
      ∧ handleGRPCError (GoError.nonGrpc msg) = (500, "internal server error\n".toList))
    ∧ (∀ (c : GrpcCode) (msg : GoStr),
      c ∉ [GrpcCode.NotFound, GrpcCode.InvalidArgument, GrpcCode.AlreadyExists,
           GrpcCode.PermissionDenied, GrpcCode.Unauthenticated,
           GrpcCode.FailedPrecondition, GrpcCode.Unimplemented, GrpcCode.Unavailable] →
      handleGRPCError (GoError.grpcStatus c msg) = (500, msg ++ ['\n'])) := by
  constructor
  · intro msg
    exact ⟨rfl, rfl, rfl, rfl, rfl, rfl, rfl, rfl, rfl⟩
  · intro c msg h
    cases c <;> first | rfl | exact absurd (by decide) h

/-- Witness for C9 at the unlisted code `DataLoss`. -/
theorem c9_witness :
    handleGRPCError (GoError.grpcStatus GrpcCode.DataLoss ['m']) = (500, ['m', '\n']) :=
  c9_grpc_error_mapping.2 GrpcCode.DataLoss ['m'] (by decide)

/-- C10: the routing step rewrites only the URL path of the request it
hands to the reverse proxy (stripping the `/api/<service>` prefix);
method, query string, headers and body are forwarded unchanged, and the
gateway's response is the backend's response to exactly that request. -/
theorem c10_frame_effect :
    ∀ (reg : List ServiceRecord) (backend : URLModel → Request → Response)
      (r : Request) serviceName forwardPath target,
    routeParse r.path = Except.ok (serviceName, forwardPath) →
    discoverService reg serviceName = Except.ok target →
    (forwardedRequest r forwardPath).method = r.method
    ∧ (forwardedRequest r forwardPath).query = r.query
    ∧ (forwardedRequest r forwardPath).headers = r.headers
    ∧ (forwardedRequest r forwardPath).body = r.body
    ∧ (forwardedRequest r forwardPath).path = forwardPath
    ∧ (routeRequest reg backend r).1 = backend target (forwardedRequest r forwardPath) := by
  intro reg backend r serviceName forwardPath target h1 h2
  refine ⟨rfl, rfl, rfl, rfl, rfl, ?_⟩
  simp [routeRequest, h1, h2]

/-- Witness for C10 at a concrete request with query, headers and body. -/
theorem c10_witness :
    (forwardedRequest
       ⟨"POST".toList, "/api/users/42".toList, "a=1".toList,
        [("K".toList, "v".toList)], "payload".toList⟩ "/42".toList).method
      = "POST".toList
    ∧ (routeRequest [⟨"users-service".toList, "h".toList, 81, true⟩]
         (fun _ req => ⟨200, req.body⟩)
         ⟨"POST".toList, "/api/users/42".toList, "a=1".toList,
          [("K".toList, "v".toList)], "payload".toList⟩).1
      = (fun _ req => (⟨200, req.body⟩ : Response)) (⟨"h".toList, 81⟩ : URLModel)
          (forwardedRequest
            ⟨"POST".toList, "/api/users/42".toList, "a=1".toList,
             [("K".toList, "v".toList)], "payload".toList⟩ "/42".toList) := by
  have h := c10_frame_effect [⟨"users-service".toList, "h".toList, 81, true⟩]
    (fun _ req => ⟨200, req.body⟩)
    ⟨"POST".toList, "/api/users/42".toList, "a=1".toList,
     [("K".toList, "v".toList)], "payload".toList⟩
    "users-service".toList "/42".toList ⟨"h".toList, 81⟩ (by rfl) (by rfl)
  exact ⟨h.1, h.2.2.2.2.2⟩
